import Mathlib

/-!
Verification of the cache-invalidation and metadata-migration engine of the
heroku/buildpacks-ruby repository.

The definitions below are a shallow embedding of:

- src/commons/src/layer/cache_buddy.rs (restored_layer_action,
  invalid_metadata_action, Meta, CacheBuddy::layer, diff_migrate_cached_layer)
- src/buildpacks/ruby/src/layers/shared.rs (restored_layer_action,
  invalid_metadata_action, cached_layer_write_metadata)
- src/buildpacks/ruby/src/layers/ruby_install_layer.rs (cache_state,
  existing_layer_strategy dispositions)

Rust trait bounds (CacheDiff, MetadataDiff, TryMigrate, Serialize) become
explicit function parameters: `diff` is the trait method `CacheDiff::diff`
(called as `now.diff(old)`), a `MigrationChain` packages the registered
migration chain of `TryMigrate`, and a `Codec` packages toml
serialization/deserialization of the metadata type. Parts of the repository
that are not present under src/ (the SentenceList display helper, the
magic_migrate chain walk, and the libcnb cached_layer / write_metadata host
collaborator) are modelled from the specification and marked as such in their
doc comments.
-/

namespace HerokuBuildpacksRuby

/-- Disposition for a restored layer, from libcnb (KeepLayer keeps the cached
directory, DeleteLayer wipes it). -/
inductive RestoredLayerAction
  | KeepLayer
  | DeleteLayer
  deriving DecidableEq, Repr

/-- Action for a layer whose persisted metadata failed to deserialize, from
libcnb: either replace the metadata with a migrated value or delete the layer. -/
inductive InvalidMetadataAction (M : Type)
  | ReplaceMetadata (metadata : M)
  | DeleteLayer
  deriving DecidableEq

/-- Embeds `Meta` from src/commons/src/layer/cache_buddy.rs: either the (old)
metadata, or a message describing why the cache was cleared. -/
inductive Meta (M : Type)
  | Message (s : String)
  | Data (m : M)
  deriving DecidableEq

/-- Embeds the `AsRef` implementation for `Meta` in cache_buddy.rs: a
retained-cache value renders as the constant "Using cache", a message renders
as itself. -/
def Meta.asRefStr {M : Type} : Meta M → String
  | Meta.Message s => s
  | Meta.Data _ => "Using cache"

/-- Embeds the `Display` implementation for `Meta` in cache_buddy.rs, which
delegates to the `AsRef` implementation. -/
def Meta.displayStr {M : Type} (m : Meta M) : String :=
  m.asRefStr

/-- Modelled from the spec: `SentenceList` (commons display helper, whose
source file is not under src/) joins difference descriptions "in
natural-language form" with commas and the word "and" before the final item. -/
def sentenceListStr : List String → String
  | [] => ""
  | [a] => a
  | [a, b] => a ++ " and " ++ b
  | a :: rest => a ++ ", " ++ sentenceListStr rest

/-- Embeds `restored_layer_action` from src/commons/src/layer/cache_buddy.rs
(lines 138 to 155). The diff is computed as `now.diff(old)`; an empty diff
keeps the layer and returns the old data, a non-empty diff deletes the layer
with a message listing the changes. -/
def restored_layer_action {M : Type} (diff : M → M → List String) (old now : M) :
    RestoredLayerAction × Meta M :=
  let d := diff now old
  if d.isEmpty then
    (RestoredLayerAction.KeepLayer, Meta.Data old)
  else
    (RestoredLayerAction.DeleteLayer,
      Meta.Message ("Clearing cache due to "
        ++ (if d.length > 1 then "changes" else "change")
        ++ ": " ++ sentenceListStr d))

/-- Outcome of the migration resolver, as named by the spec: direct
deserialization success, success after walking the migration chain, an
explicit rejection by a conversion step, or no schema in the chain matched. -/
inductive MigrationOutcome (M : Type)
  | DirectSuccess (value : M)
  | MigratedSuccess (value : M)
  | MigrationFailure (error : String)
  | Unparseable
  deriving DecidableEq

/-- Modelled from the spec: the registered migration chain of the
`TryMigrate` trait (magic_migrate, whose source is not under src/). `target`
attempts to deserialize raw serialized data directly as the target schema;
each entry of `history` attempts to deserialize the raw data as one
historical schema and, on success, applies the forward conversion chain to
the target, which may fail with a display-ready error. -/
structure MigrationChain (M : Type) where
  target : String → Option M
  history : List (String → Option (Except String M))

/-- Walks the historical schemas in registration order and returns the result
of the first schema that can deserialize the raw data, or `none` when no
schema in the chain matches. -/
def firstParse {M : Type} : List (String → Option (Except String M)) → String → Option (Except String M)
  | [], _ => none
  | f :: fs, raw =>
    match f raw with
    | some r => some r
    | none => firstParse fs raw

/-- Modelled from the spec: the migration resolver. Direct deserialization as
the target schema is always preferred; otherwise the historical chain is
walked, short-circuiting on an explicit conversion rejection; if no schema
matches, the data is unparseable. -/
def resolveMigration {M : Type} (c : MigrationChain M) (raw : String) : MigrationOutcome M :=
  match c.target raw with
  | some value => MigrationOutcome.DirectSuccess value
  | none =>
    match firstParse c.history raw with
    | some (Except.ok value) => MigrationOutcome.MigratedSuccess value
    | some (Except.error e) => MigrationOutcome.MigrationFailure e
    | none => MigrationOutcome.Unparseable

/-- Modelled from the spec: `TryMigrate::try_from_str_migrations` of
magic_migrate, as used by both invalid_metadata_action implementations.
`none` means no schema in the chain matched; `some (ok m)` is a direct or
migrated success; `some (error e)` is a conversion-step rejection. -/
def try_from_str_migrations {M : Type} (c : MigrationChain M) (raw : String) :
    Option (Except String M) :=
  match resolveMigration c raw with
  | MigrationOutcome.DirectSuccess value => some (Except.ok value)
  | MigrationOutcome.MigratedSuccess value => some (Except.ok value)
  | MigrationOutcome.MigrationFailure e => some (Except.error e)
  | MigrationOutcome.Unparseable => none

/-- Embeds `invalid_metadata_action` from src/commons/src/layer/cache_buddy.rs
(lines 162 to 195). `ser` stands for `toml::to_string` on the invalid value
(which can itself fail). -/
def invalid_metadata_action {M S : Type} (c : MigrationChain M)
    (ser : S → Except String String) (invalid : S) :
    InvalidMetadataAction M × Meta M :=
  match ser invalid with
  | Except.ok toml =>
    match try_from_str_migrations c toml with
    | some (Except.ok migrated) =>
      (InvalidMetadataAction.ReplaceMetadata migrated, Meta.Data migrated)
    | some (Except.error error) =>
      (InvalidMetadataAction.DeleteLayer,
        Meta.Message ("Clearing cache due to metadata migration error: " ++ error))
    | none =>
      (InvalidMetadataAction.DeleteLayer,
        Meta.Message ("Clearing cache due to invalid metadata (" ++ toml.trim ++ ")"))
  | Except.error error =>
    (InvalidMetadataAction.DeleteLayer,
      Meta.Message ("Clearing cache due to invalid metadata serialization error: " ++ error))

/-- Embeds `restored_layer_action` from src/buildpacks/ruby/src/layers/shared.rs
(lines 114 to 131): same decision as the commons version, but the second
component is a plain string ("Using cache" in the keep case). -/
def shared_restored_layer_action {M : Type} (diff : M → M → List String) (old now : M) :
    RestoredLayerAction × String :=
  let d := diff now old
  if d.isEmpty then
    (RestoredLayerAction.KeepLayer, "Using cache")
  else
    (RestoredLayerAction.DeleteLayer,
      "Clearing cache due to "
        ++ (if d.length > 1 then "changes" else "change")
        ++ ": " ++ sentenceListStr d)

/-- Embeds `invalid_metadata_action` from src/buildpacks/ruby/src/layers/shared.rs
(lines 138 to 169): same decision as the commons version, but the second
component is a plain string ("Replaced metadata" in the replace case). -/
def shared_invalid_metadata_action {M S : Type} (c : MigrationChain M)
    (ser : S → Except String String) (invalid : S) :
    InvalidMetadataAction M × String :=
  match ser invalid with
  | Except.ok toml =>
    match try_from_str_migrations c toml with
    | some (Except.ok migrated) =>
      (InvalidMetadataAction.ReplaceMetadata migrated, "Replaced metadata")
    | some (Except.error error) =>
      (InvalidMetadataAction.DeleteLayer,
        "Clearing cache due to metadata migration error: " ++ error)
    | none =>
      (InvalidMetadataAction.DeleteLayer,
        "Clearing cache due to invalid metadata (" ++ toml.trim ++ ")")
  | Except.error error =>
    (InvalidMetadataAction.DeleteLayer,
      "Clearing cache due to invalid metadata serialization error: " ++ error)

/-- Maps the shared (string-cause) result of invalid_metadata_action to the
`Meta` value the commons version produces in the same case. -/
def metaOfShared {M : Type} : InvalidMetadataAction M × String → Meta M
  | (InvalidMetadataAction.ReplaceMetadata m, _) => Meta.Data m
  | (InvalidMetadataAction.DeleteLayer, s) => Meta.Message s

/-- Cause of an empty layer, from libcnb: newly created, or emptied because of
the invalid-metadata action or the restored-layer action. -/
inductive EmptyLayerCause (M : Type)
  | NewlyCreated
  | InvalidMetadataAction (cause : Meta M)
  | RestoredLayerAction (cause : Meta M)
  deriving DecidableEq

/-- State of a layer after the caching decision, from libcnb: empty (with a
cause) or restored (cache kept). -/
inductive LayerState (M : Type)
  | Empty (cause : EmptyLayerCause M)
  | Restored (cause : Meta M)
  deriving DecidableEq

/-- Serialization and deserialization of the metadata type (the toml format of
the persisted metadata sidecar). Serialization can fail, which the spec
treats as fatal. -/
structure Codec (M : Type) where
  ser : M → Except String String
  deser : String → Option M

/-- Runs the commons restored-layer decision on old metadata recovered from
disk (raw serialized form `raw`): keeping the layer leaves the sidecar as is,
deleting it removes the sidecar. -/
def runRestored {M : Type} (diff : M → M → List String) (fresh old : M) (raw : String) :
    LayerState M × Option String :=
  match restored_layer_action diff old fresh with
  | (RestoredLayerAction.KeepLayer, meta) => (LayerState.Restored meta, some raw)
  | (RestoredLayerAction.DeleteLayer, meta) =>
    (LayerState.Empty (EmptyLayerCause.RestoredLayerAction meta), none)

/-- Modelled from the spec: the libcnb `cached_layer` host collaborator (not
under src/), instantiated with the commons cache_buddy callbacks. The state is
the optional raw serialized metadata sidecar. Absent metadata means a newly
created layer; metadata that deserializes directly goes to the restored-layer
decision; otherwise the invalid-metadata action runs, and a replaced
(migrated) value is written and then fed to the restored-layer decision. -/
def cached_layer {M : Type} (codec : Codec M) (c : MigrationChain M)
    (diff : M → M → List String) (fresh : M) :
    Option String → Except String (LayerState M × Option String)
  | none => Except.ok (LayerState.Empty EmptyLayerCause.NewlyCreated, none)
  | some raw =>
    match codec.deser raw with
    | some old => Except.ok (runRestored diff fresh old raw)
    | none =>
      match invalid_metadata_action c Except.ok raw with
      | (InvalidMetadataAction.ReplaceMetadata m, _) =>
        match codec.ser m with
        | Except.ok raw2 => Except.ok (runRestored diff fresh m raw2)
        | Except.error e => Except.error e
      | (InvalidMetadataAction.DeleteLayer, meta) =>
        Except.ok (LayerState.Empty (EmptyLayerCause.InvalidMetadataAction meta), none)

/-- Modelled from the spec: `LayerRef::write_metadata` of libcnb (not under
src/) serializes the fresh metadata and overwrites the persisted sidecar with
it, regardless of the decided state; a serialization failure is fatal. -/
def write_metadata {M A : Type} (codec : Codec M) (fresh : M)
    (st : A × Option String) : Except String (A × Option String) :=
  match codec.ser fresh with
  | Except.ok raw => Except.ok (st.1, some raw)
  | Except.error _ => Except.error "serialization error"

/-- Embeds `diff_migrate_cached_layer` from src/commons/src/layer/cache_buddy.rs
(lines 77 to 99): run the cached-layer decision, then unconditionally write
the fresh metadata. -/
def diff_migrate_cached_layer {M : Type} (codec : Codec M) (c : MigrationChain M)
    (diff : M → M → List String) (fresh : M) (disk : Option String) :
    Except String (LayerState M × Option String) :=
  match cached_layer codec c diff fresh disk with
  | Except.ok st => write_metadata codec fresh st
  | Except.error e => Except.error e

/-- Embeds the `CacheBuddy` struct of cache_buddy.rs (build and launch cache
flags, which do not influence the decision logic). -/
structure CacheBuddy where
  build : Bool
  launch : Bool

/-- Embeds `CacheBuddy::layer` from src/commons/src/layer/cache_buddy.rs
(lines 109 to 130): identical body to diff_migrate_cached_layer, with the
build and launch flags taken from the struct (they only configure the host
collaborator and are ignored by the decision logic). -/
def CacheBuddy.layer {M : Type} (_self : CacheBuddy) (codec : Codec M) (c : MigrationChain M)
    (diff : M → M → List String) (fresh : M) (disk : Option String) :
    Except String (LayerState M × Option String) :=
  match cached_layer codec c diff fresh disk with
  | Except.ok st => write_metadata codec fresh st
  | Except.error e => Except.error e

/-- Cause of an empty layer in the shared.rs flow, where causes are plain
strings instead of `Meta` values. -/
inductive EmptyLayerCauseS
  | NewlyCreated
  | InvalidMetadataAction (cause : String)
  | RestoredLayerAction (cause : String)
  deriving DecidableEq

/-- Layer state in the shared.rs flow, where causes are plain strings. -/
inductive LayerStateS
  | Empty (cause : EmptyLayerCauseS)
  | Restored (cause : String)
  deriving DecidableEq

/-- Runs the shared.rs restored-layer decision on old metadata recovered from
disk. -/
def runRestoredShared {M : Type} (diff : M → M → List String) (fresh old : M) (raw : String) :
    LayerStateS × Option String :=
  match shared_restored_layer_action diff old fresh with
  | (RestoredLayerAction.KeepLayer, s) => (LayerStateS.Restored s, some raw)
  | (RestoredLayerAction.DeleteLayer, s) =>
    (LayerStateS.Empty (EmptyLayerCauseS.RestoredLayerAction s), none)

/-- Modelled from the spec: the libcnb `cached_layer` host collaborator
instantiated with the shared.rs callbacks. -/
def shared_cached_layer {M : Type} (codec : Codec M) (c : MigrationChain M)
    (diff : M → M → List String) (fresh : M) :
    Option String → Except String (LayerStateS × Option String)
  | none => Except.ok (LayerStateS.Empty EmptyLayerCauseS.NewlyCreated, none)
  | some raw =>
    match codec.deser raw with
    | some old => Except.ok (runRestoredShared diff fresh old raw)
    | none =>
      match shared_invalid_metadata_action c Except.ok raw with
      | (InvalidMetadataAction.ReplaceMetadata m, _) =>
        match codec.ser m with
        | Except.ok raw2 => Except.ok (runRestoredShared diff fresh m raw2)
        | Except.error e => Except.error e
      | (InvalidMetadataAction.DeleteLayer, s) =>
        Except.ok (LayerStateS.Empty (EmptyLayerCauseS.InvalidMetadataAction s), none)

/-- Embeds `cached_layer_write_metadata` from src/buildpacks/ruby/src/layers/shared.rs
(lines 80 to 101): run the cached-layer decision with the shared.rs callbacks,
then unconditionally write the fresh metadata. -/
def cached_layer_write_metadata {M : Type} (codec : Codec M) (c : MigrationChain M)
    (diff : M → M → List String) (fresh : M) (disk : Option String) :
    Except String (LayerStateS × Option String) :=
  match shared_cached_layer codec c diff fresh disk with
  | Except.ok st => write_metadata codec fresh st
  | Except.error e => Except.error e

/-- Embeds the `TestMetadata` fixture of the cache_buddy.rs and shared.rs
tests: a single string field used as the cache key. -/
structure TestMetadata where
  value : String
  deriving DecidableEq

/-- Embeds `CacheDiff for TestMetadata` from the cache_buddy.rs tests (lines
253 to 261): equal values give an empty diff, different values report the
change of the `value` field. -/
def TestMetadata.diff (self old : TestMetadata) : List String :=
  if self.value = old.value then []
  else ["value (" ++ old.value ++ " to " ++ self.value ++ ")"]

/-- Embeds `RubyInstallLayerMetadata` from
src/buildpacks/ruby/src/layers/ruby_install_layer.rs: the StackId and
ResolvedRubyVersion newtypes are embedded as their underlying strings. -/
structure RubyInstallLayerMetadata where
  stack : String
  version : String
  deriving DecidableEq

/-- Embeds the `Changed` enum of ruby_install_layer.rs. -/
inductive Changed
  | Nothing (version : String)
  | Stack (old now : String)
  | RubyVersion (old now : String)
  deriving DecidableEq

/-- Embeds `cache_state` from ruby_install_layer.rs (lines 112 to 122): a stack
change wins over a version change; when neither field changed the result is
`Nothing` carrying the current version. -/
def cache_state (old now : RubyInstallLayerMetadata) : Changed :=
  if old.stack ≠ now.stack then Changed.Stack old.stack now.stack
  else if old.version ≠ now.version then Changed.RubyVersion old.version now.version
  else Changed.Nothing now.version

/-- Disposition of an existing layer, from libcnb (only the variants used by
ruby_install_layer.rs). -/
inductive ExistingLayerStrategy
  | Recreate
  | Keep
  deriving DecidableEq

/-- Embeds the decision of `existing_layer_strategy` in ruby_install_layer.rs
(lines 79 to 109): `Nothing` keeps the layer, any change recreates it. -/
def existing_layer_strategy (old now : RubyInstallLayerMetadata) : ExistingLayerStrategy :=
  match cache_state old now with
  | Changed.Nothing _ => ExistingLayerStrategy.Keep
  | Changed.Stack _ _ => ExistingLayerStrategy.Recreate
  | Changed.RubyVersion _ _ => ExistingLayerStrategy.Recreate

/-- Embeds the `PersonV1` fixture of the cache_buddy.rs tests. -/
structure PersonV1 where
  name : String
  deriving DecidableEq

/-- Embeds the `PersonV2` fixture of the cache_buddy.rs tests. -/
structure PersonV2 where
  name : String
  updated_at : String
  deriving DecidableEq

/-- Embeds `TryFrom PersonV1 for PersonV2` from the cache_buddy.rs tests: the
conversion succeeds only for the name "Schneems" and otherwise rejects with
the `NotRichard` error, whose display form is "Not Richard". -/
def tryFromV1 (p : PersonV1) : Except String PersonV2 :=
  if p.name = "Schneems" then Except.ok ⟨p.name, "unknown"⟩
  else Except.error "Not Richard"

/-- Toml parser for the PersonV1 fixture, covering the serialized forms the
witnesses use. -/
def parsePersonV1 (raw : String) : Option PersonV1 :=
  if raw = "name = \"Schneems\"" then some ⟨"Schneems"⟩
  else if raw = "name = \"not_richard\"" then some ⟨"not_richard"⟩
  else none

/-- Toml serialization of the PersonV1 fixture. -/
def personV1Ser (p : PersonV1) : Except String String :=
  Except.ok ("name = \"" ++ p.name ++ "\"")

/-- Migration chain registered for the PersonV2 fixture: the target parse
rejects PersonV1-shaped data (it lacks the updated_at field) and the chain
holds the single historical schema PersonV1 with its forward conversion. -/
def personChainV2 : MigrationChain PersonV2 where
  target := fun _ => none
  history := [fun raw => (parsePersonV1 raw).map tryFromV1]

/-- Migration chain with no matching schema at all, for the unparseable
witness. -/
def emptyChainString : MigrationChain String where
  target := fun _ => none
  history := []

/-- Demonstration chain for the migrated-success witness: the target schema
never parses directly and the single historical schema always parses and
migrates by prefixing the raw data. -/
def migChainDemo : MigrationChain String where
  target := fun _ => none
  history := [fun s => some (Except.ok ("migrated:" ++ s))]

/-- Demonstration codec for the flow witnesses: serialization is the identity
and only the string "good" deserializes. -/
def codecDemo : Codec String where
  ser := fun s => Except.ok s
  deser := fun s => if s = "good" then some s else none

/-- Demonstration diff for the flow witnesses: equal strings give an empty
diff. -/
def diffDemo (now old : String) : List String :=
  if now = old then [] else ["changed"]

/-- Claim C2: for every metadata type and every pair old, now whose diff
(computed as now.diff old) is empty, restored_layer_action keeps the layer and
returns exactly the old value, not the fresh one. -/
theorem c2_empty_diff_keeps_old {M : Type} (diff : M → M → List String) (old now : M)
    (h : diff now old = []) :
    restored_layer_action diff old now = (RestoredLayerAction.KeepLayer, Meta.Data old) := by
  simp [restored_layer_action, h]

/-- Witness for C2 at the AlwaysNoDiff fixture of the cache_buddy.rs tests: an
always-empty diff on distinct values keeps the layer and returns the old
value. -/
theorem c2_empty_diff_keeps_old_witness :
    (fun (_ _ : TestMetadata) => ([] : List String)) (⟨"now"⟩ : TestMetadata) ⟨"old"⟩ = [] ∧
    restored_layer_action (fun _ _ => ([] : List String)) (⟨"old"⟩ : TestMetadata) ⟨"now"⟩ =
      (RestoredLayerAction.KeepLayer, Meta.Data ⟨"old"⟩) :=
  ⟨rfl, c2_empty_diff_keeps_old (M := TestMetadata) (fun _ _ => []) ⟨"old"⟩ ⟨"now"⟩ rfl⟩

/-- Claim C3: for every metadata type and every pair old, now with a non-empty
diff, restored_layer_action deletes the layer with the message "Clearing cache
due to " followed by "change" or "changes" according to the diff length, a
colon, and the sentence-joined diff items. -/
theorem c3_nonempty_diff_message {M : Type} (diff : M → M → List String) (old now : M)
    (h : diff now old ≠ []) :
    restored_layer_action diff old now =
      (RestoredLayerAction.DeleteLayer,
        Meta.Message ("Clearing cache due to "
          ++ (if (diff now old).length > 1 then "changes" else "change")
          ++ ": " ++ sentenceListStr (diff now old))) := by
  unfold restored_layer_action
  cases hd : diff now old with
  | nil => exact absurd hd h
  | cons a as => simp [hd]

/-- Witness for C3 at the TestMetadata fixture: old value "hello", fresh value
"world" produces exactly the message of Scenario C. -/
theorem c3_nonempty_diff_message_witness :
    TestMetadata.diff (⟨"world"⟩ : TestMetadata) ⟨"hello"⟩ ≠ [] ∧
    restored_layer_action TestMetadata.diff (⟨"hello"⟩ : TestMetadata) ⟨"world"⟩ =
      (RestoredLayerAction.DeleteLayer,
        Meta.Message "Clearing cache due to change: value (hello to world)") := by
  constructor
  · decide
  · rw [c3_nonempty_diff_message TestMetadata.diff ⟨"hello"⟩ ⟨"world"⟩ (by decide)]
    rfl

/-- Claim C8: rendering a Meta value via Display or AsRef yields the constant
"Using cache" for retained data and exactly the carried message otherwise;
Display delegates to AsRef. -/
theorem c8_meta_render {M : Type} (d : M) (s : String) (m : Meta M) :
    Meta.displayStr m = Meta.asRefStr m
    ∧ Meta.asRefStr (Meta.Data d) = "Using cache"
    ∧ Meta.asRefStr (Meta.Message (M := M) s) = s :=
  ⟨rfl, rfl, rfl⟩

/-- Claim C9: diffing equal values yields no invalidation: the TestMetadata
diff of a value with itself is empty, and cache_state on two
RubyInstallLayerMetadata values with equal stack and equal version is
`Nothing`, so the existing layer is kept. -/
theorem c9_equal_values_no_invalidation (m : TestMetadata) (old now : RubyInstallLayerMetadata)
    (hs : old.stack = now.stack) (hv : old.version = now.version) :
    TestMetadata.diff m m = []
    ∧ cache_state old now = Changed.Nothing now.version
    ∧ existing_layer_strategy old now = ExistingLayerStrategy.Keep := by
  refine ⟨by simp [TestMetadata.diff], by simp [cache_state, hs, hv], ?_⟩
  simp [existing_layer_strategy, cache_state, hs, hv]

/-- Witness for C9 at concrete values: version 3.1.3 on stack heroku-22. -/
theorem c9_equal_values_no_invalidation_witness :
    TestMetadata.diff (⟨"hello"⟩ : TestMetadata) ⟨"hello"⟩ = []
    ∧ cache_state ⟨"heroku-22", "3.1.3"⟩ ⟨"heroku-22", "3.1.3"⟩ = Changed.Nothing "3.1.3"
    ∧ existing_layer_strategy ⟨"heroku-22", "3.1.3"⟩ ⟨"heroku-22", "3.1.3"⟩ =
        ExistingLayerStrategy.Keep :=
  c9_equal_values_no_invalidation ⟨"hello"⟩ ⟨"heroku-22", "3.1.3"⟩ ⟨"heroku-22", "3.1.3"⟩ rfl rfl

/-- Claim C7: for every chain and raw input the migration resolver produces
exactly one of the four outcomes, each characterized by a mutually exclusive
and jointly exhaustive condition on the target parse and the chain walk. -/
theorem c7_resolver_exactly_one_outcome {M : Type} (c : MigrationChain M) (raw : String) :
    (∀ v : M, resolveMigration c raw = MigrationOutcome.DirectSuccess v ↔ c.target raw = some v)
    ∧ (∀ v : M, resolveMigration c raw = MigrationOutcome.MigratedSuccess v ↔
        c.target raw = none ∧ firstParse c.history raw = some (Except.ok v))
    ∧ (∀ e : String, resolveMigration c raw = MigrationOutcome.MigrationFailure e ↔
        c.target raw = none ∧ firstParse c.history raw = some (Except.error e))
    ∧ (resolveMigration c raw = MigrationOutcome.Unparseable ↔
        c.target raw = none ∧ firstParse c.history raw = none) := by
  unfold resolveMigration
  cases ht : c.target raw with
  | some v => simp [ht]
  | none =>
    cases hf : firstParse c.history raw with
    | none => simp
    | some r =>
      cases r with
      | ok v => simp
      | error e => simp

/-- Claim C4: when the serialized invalid value parses as a historical schema
whose forward conversion rejects (and the target parse fails),
invalid_metadata_action deletes the layer with the rejection error surfaced
verbatim after "Clearing cache due to metadata migration error: ". -/
theorem c4_migration_failure_message {M S : Type} (c : MigrationChain M)
    (ser : S → Except String String) (invalid : S) (toml e : String)
    (hser : ser invalid = Except.ok toml)
    (htarget : c.target toml = none)
    (hfail : firstParse c.history toml = some (Except.error e)) :
    invalid_metadata_action c ser invalid =
      (InvalidMetadataAction.DeleteLayer,
        Meta.Message ("Clearing cache due to metadata migration error: " ++ e)) := by
  simp [invalid_metadata_action, hser, try_from_str_migrations, resolveMigration, htarget, hfail]

/-- Witness for C4 at the PersonV1 to PersonV2 fixture: the name not_richard
is rejected by the conversion step and the exact message of Scenario E is
produced. -/
theorem c4_migration_failure_message_witness :
    personV1Ser ⟨"not_richard"⟩ = Except.ok "name = \"not_richard\""
    ∧ personChainV2.target "name = \"not_richard\"" = none
    ∧ firstParse personChainV2.history "name = \"not_richard\"" = some (Except.error "Not Richard")
    ∧ invalid_metadata_action personChainV2 personV1Ser (⟨"not_richard"⟩ : PersonV1) =
        (InvalidMetadataAction.DeleteLayer,
          Meta.Message "Clearing cache due to metadata migration error: Not Richard") := by
  refine ⟨rfl, rfl, rfl, ?_⟩
  rw [c4_migration_failure_message personChainV2 personV1Ser ⟨"not_richard"⟩
    "name = \"not_richard\"" "Not Richard" rfl rfl rfl]
  rfl

/-- Claim C5: when the serialized invalid value matches no schema in the chain
(try_from_str_migrations returns none), invalid_metadata_action deletes the
layer with the message "Clearing cache due to invalid metadata (...)" holding
the trimmed raw serialized form, and in the full layer flow this outcome is a
recoverable empty-layer state, not an error. -/
theorem c5_unparseable_message {M S : Type} (c : MigrationChain M)
    (ser : S → Except String String) (invalid : S) (toml : String)
    (hser : ser invalid = Except.ok toml)
    (hnone : try_from_str_migrations c toml = none) :
    invalid_metadata_action c ser invalid =
      (InvalidMetadataAction.DeleteLayer,
        Meta.Message ("Clearing cache due to invalid metadata (" ++ toml.trim ++ ")"))
    ∧ ∀ (codec : Codec M) (diff : M → M → List String) (fresh : M),
        codec.deser toml = none →
        cached_layer codec c diff fresh (some toml) =
          Except.ok (LayerState.Empty (EmptyLayerCause.InvalidMetadataAction
            (Meta.Message ("Clearing cache due to invalid metadata (" ++ toml.trim ++ ")"))), none) := by
  constructor
  · simp [invalid_metadata_action, hser, hnone]
  · intro codec diff fresh hd
    simp [cached_layer, hd, invalid_metadata_action, hnone]

/-- Witness for C5 at a chain with no matching schema and the raw form of the
TestMetadata fixture. -/
theorem c5_unparseable_message_witness :
    (Except.ok "value = \"world\"" : Except String String) = Except.ok "value = \"world\""
    ∧ try_from_str_migrations emptyChainString "value = \"world\"" = none
    ∧ (invalid_metadata_action emptyChainString (fun s : String => Except.ok s) "value = \"world\"" =
        (InvalidMetadataAction.DeleteLayer,
          Meta.Message ("Clearing cache due to invalid metadata ("
            ++ ("value = \"world\"").trim ++ ")"))
      ∧ ∀ (codec : Codec String) (diff : String → String → List String) (fresh : String),
          codec.deser "value = \"world\"" = none →
          cached_layer codec emptyChainString diff fresh (some "value = \"world\"") =
            Except.ok (LayerState.Empty (EmptyLayerCause.InvalidMetadataAction
              (Meta.Message ("Clearing cache due to invalid metadata ("
                ++ ("value = \"world\"").trim ++ ")"))), none)) :=
  ⟨rfl, rfl,
    c5_unparseable_message emptyChainString (fun s => Except.ok s) "value = \"world\""
      "value = \"world\"" rfl rfl⟩

/-- Claim C6: when the persisted raw metadata does not deserialize directly
but the migration chain succeeds with value m, the layer flow feeds the
migrated value and the fresh value through the diff engine, and the final
disposition (restored versus emptied) is exactly the emptiness of the diff of
the fresh value against the migrated value. -/
theorem c6_migrated_value_diffed {M : Type} (codec : Codec M) (c : MigrationChain M)
    (diff : M → M → List String) (fresh m : M) (raw raw2 : String) (meta : Meta M)
    (hdeser : codec.deser raw = none)
    (hmig : invalid_metadata_action c Except.ok raw = (InvalidMetadataAction.ReplaceMetadata m, meta))
    (hser : codec.ser m = Except.ok raw2) :
    cached_layer codec c diff fresh (some raw) = Except.ok (runRestored diff fresh m raw2)
    ∧ ((∃ cause, (runRestored diff fresh m raw2).1 = LayerState.Restored cause) ↔
        diff fresh m = []) := by
  constructor
  · simp [cached_layer, hdeser, hmig, hser]
  · unfold runRestored restored_layer_action
    cases hd : diff fresh m with
    | nil => simp
    | cons a as => simp

/-- Witness for C6: the raw value "old" does not deserialize, migrates to
"migrated:old", and the empty diff against the equal fresh value restores the
layer. -/
theorem c6_migrated_value_diffed_witness :
    codecDemo.deser "old" = none
    ∧ invalid_metadata_action migChainDemo Except.ok "old" =
        (InvalidMetadataAction.ReplaceMetadata "migrated:old", Meta.Data "migrated:old")
    ∧ codecDemo.ser "migrated:old" = Except.ok "migrated:old"
    ∧ (cached_layer codecDemo migChainDemo diffDemo "migrated:old" (some "old") =
        Except.ok (runRestored diffDemo "migrated:old" "migrated:old" "migrated:old")
      ∧ ((∃ cause, (runRestored diffDemo "migrated:old" "migrated:old" "migrated:old").1 =
          LayerState.Restored cause) ↔ diffDemo "migrated:old" "migrated:old" = [])) :=
  ⟨rfl, rfl, rfl,
    c6_migrated_value_diffed codecDemo migChainDemo diffDemo "migrated:old" "migrated:old"
      "old" "migrated:old" (Meta.Data "migrated:old") rfl rfl rfl⟩

/-- Helper: a successful write_metadata step leaves exactly the serialization
of the fresh metadata on disk. -/
theorem write_step_disk {M A : Type} (codec : Codec M) (fresh : M)
    (st : A × Option String) (out : A × Option String)
    (h : write_metadata codec fresh st = Except.ok out) :
    ∃ raw, codec.ser fresh = Except.ok raw ∧ out.2 = some raw := by
  unfold write_metadata at h
  cases hs : codec.ser fresh with
  | error e => rw [hs] at h; exact Except.noConfusion h
  | ok raw =>
    rw [hs] at h
    refine ⟨raw, rfl, ?_⟩
    rw [← Except.ok.inj h]

/-- Claim C1: every successful call to the three layer-caching entry points
(CacheBuddy.layer, diff_migrate_cached_layer, cached_layer_write_metadata)
leaves the serialization of the fresh metadata as the persisted sidecar, in
every case (keep, recreate, newly created, migrated). -/
theorem c1_fresh_metadata_always_written {M : Type} (codec : Codec M) (c : MigrationChain M)
    (diff : M → M → List String) (fresh : M) (disk : Option String) (b l : Bool)
    (out1 out2 : LayerState M × Option String) (out3 : LayerStateS × Option String)
    (h1 : CacheBuddy.layer ⟨b, l⟩ codec c diff fresh disk = Except.ok out1)
    (h2 : diff_migrate_cached_layer codec c diff fresh disk = Except.ok out2)
    (h3 : cached_layer_write_metadata codec c diff fresh disk = Except.ok out3) :
    ∃ raw, codec.ser fresh = Except.ok raw
      ∧ out1.2 = some raw ∧ out2.2 = some raw ∧ out3.2 = some raw := by
  unfold CacheBuddy.layer at h1
  unfold diff_migrate_cached_layer at h2
  unfold cached_layer_write_metadata at h3
  have e1 : ∃ raw, codec.ser fresh = Except.ok raw ∧ out1.2 = some raw := by
    cases hc : cached_layer codec c diff fresh disk with
    | ok st => rw [hc] at h1; exact write_step_disk codec fresh st out1 h1
    | error e => rw [hc] at h1; exact Except.noConfusion h1
  have e2 : ∃ raw, codec.ser fresh = Except.ok raw ∧ out2.2 = some raw := by
    cases hc : cached_layer codec c diff fresh disk with
    | ok st => rw [hc] at h2; exact write_step_disk codec fresh st out2 h2
    | error e => rw [hc] at h2; exact Except.noConfusion h2
  have e3 : ∃ raw, codec.ser fresh = Except.ok raw ∧ out3.2 = some raw := by
    cases hc : shared_cached_layer codec c diff fresh disk with
    | ok st => rw [hc] at h3; exact write_step_disk codec fresh st out3 h3
    | error e => rw [hc] at h3; exact Except.noConfusion h3
  obtain ⟨r1, hr1, ho1⟩ := e1
  obtain ⟨r2, hr2, ho2⟩ := e2
  obtain ⟨r3, hr3, ho3⟩ := e3
  have h12 : r1 = r2 := Except.ok.inj (hr1.symm.trans hr2)
  have h13 : r1 = r3 := Except.ok.inj (hr1.symm.trans hr3)
  refine ⟨r1, hr1, ho1, ?_, ?_⟩
  · rw [ho2, h12]
  · rw [ho3, h13]

/-- Witness for C1: a newly created layer (no prior metadata) ends with the
fresh metadata "x" persisted, through all three entry points. -/
theorem c1_fresh_metadata_always_written_witness :
    CacheBuddy.layer ⟨true, true⟩ codecDemo migChainDemo diffDemo "x" none =
      Except.ok (LayerState.Empty EmptyLayerCause.NewlyCreated, some "x")
    ∧ diff_migrate_cached_layer codecDemo migChainDemo diffDemo "x" none =
      Except.ok (LayerState.Empty EmptyLayerCause.NewlyCreated, some "x")
    ∧ cached_layer_write_metadata codecDemo migChainDemo diffDemo "x" none =
      Except.ok (LayerStateS.Empty EmptyLayerCauseS.NewlyCreated, some "x")
    ∧ ∃ raw, codecDemo.ser "x" = Except.ok raw
      ∧ (some "x" : Option String) = some raw
      ∧ (some "x" : Option String) = some raw
      ∧ (some "x" : Option String) = some raw :=
  ⟨rfl, rfl, rfl,
    c1_fresh_metadata_always_written codecDemo migChainDemo diffDemo "x" none true true
      (LayerState.Empty EmptyLayerCause.NewlyCreated, some "x")
      (LayerState.Empty EmptyLayerCause.NewlyCreated, some "x")
      (LayerStateS.Empty EmptyLayerCauseS.NewlyCreated, some "x") rfl rfl rfl⟩

/-- Claim C10: the commons (cache_buddy.rs) and the shared.rs implementations
of the decision logic agree: same restored-layer action with the same rendered
cause, and same invalid-metadata action, with the commons Meta value fully
determined by the shared string result (same explanation string in every
cache-clearing case). -/
theorem c10_commons_shared_equivalent {M S : Type} (diff : M → M → List String) (old now : M)
    (c : MigrationChain M) (ser : S → Except String String) (invalid : S) :
    (restored_layer_action diff old now).1 = (shared_restored_layer_action diff old now).1
    ∧ Meta.asRefStr (restored_layer_action diff old now).2 =
        (shared_restored_layer_action diff old now).2
    ∧ (invalid_metadata_action c ser invalid).1 = (shared_invalid_metadata_action c ser invalid).1
    ∧ (invalid_metadata_action c ser invalid).2 =
        metaOfShared (shared_invalid_metadata_action c ser invalid) := by
  refine ⟨?_, ?_, ?_, ?_⟩
  · by_cases hd : (diff now old).isEmpty <;>
      simp [restored_layer_action, shared_restored_layer_action, hd]
  · by_cases hd : (diff now old).isEmpty <;>
      simp [restored_layer_action, shared_restored_layer_action, hd, Meta.asRefStr]
  · cases hs : ser invalid with
    | error e => simp [invalid_metadata_action, shared_invalid_metadata_action, hs]
    | ok toml =>
      cases hm : try_from_str_migrations c toml with
      | none => simp [invalid_metadata_action, shared_invalid_metadata_action, hs, hm]
      | some r =>
        cases r with
        | ok v => simp [invalid_metadata_action, shared_invalid_metadata_action, hs, hm]
        | error e => simp [invalid_metadata_action, shared_invalid_metadata_action, hs, hm]
  · cases hs : ser invalid with
    | error e =>
      simp [invalid_metadata_action, shared_invalid_metadata_action, hs, metaOfShared]
    | ok toml =>
      cases hm : try_from_str_migrations c toml with
      | none =>
        simp [invalid_metadata_action, shared_invalid_metadata_action, hs, hm, metaOfShared]
      | some r =>
        cases r with
        | ok v =>
          simp [invalid_metadata_action, shared_invalid_metadata_action, hs, hm, metaOfShared]
        | error e =>
          simp [invalid_metadata_action, shared_invalid_metadata_action, hs, hm, metaOfShared]
